import Mathlib

/-!
Shallow embedding of the gRPC transport adapter (`transport/grpc.go`) of
the `yab` repository, together with theorems settling the claims about it.

External collaborators (the YARPC engine, the filesystem, TLS parsing)
are abstracted into environment records of explicit results; the adapter
logic itself is translated function by function from the Go source.
Observable side effects (file reads, transport construction, start/stop
calls) are recorded in an explicit trace so that claims of the form
"X is never started" become statements about the trace.
-/

namespace YabGRPC

/-- Bytes of a file, as read by `ioutil.ReadFile`. -/
abbrev Bytes := List Nat

/-- An abstract parsed X509 certificate handle. -/
abbrev Cert := Nat

/-- An abstract peer identifier, produced by `hostport.Identify`. -/
abbrev Identifier := String

/-- Model of `hostport.Identify`: turns a textual "host:port" address into a peer
identifier (modelled as the address itself, kept opaque). -/
def hostportIdentify (address : String) : Identifier := address

/-- Function `peersToIdentifiers` from `grpc.go`: maps each textual address to a
peer identifier, preserving order and duplicates. -/
def peersToIdentifiers (peers : List String) : List Identifier :=
  peers.map hostportIdentify

/-- Struct `GRPCOptions` from `grpc.go`. The tracer is an opaque handle; `none`
models a nil tracer. -/
structure GRPCOptions where
  Addresses : List String
  Tracer : Option Nat
  Caller : String
  Encoding : String
  RoutingKey : String
  RoutingDelegate : String
  MaxResponseSize : Int
  CAPath : String
  CertPath : String
  PrivateKeyPath : String
deriving Repr, DecidableEq

/-- The errors produced by the adapter.  The five sentinel errors mirror
the `errGRPC...` variables of `grpc.go`; `loadCA`, `appendCAFailed` and
`loadKeyPair` mirror the TLS construction errors; `engine` wraps an error
of the underlying engine passed through unmodified. -/
inductive GRPCError where
  | noAddresses
  | noTracer
  | noCaller
  | noService
  | noProcedure
  | loadCA (msg : String)
  | appendCAFailed
  | loadKeyPair (msg : String)
  | engine (msg : String)
deriving Repr, DecidableEq

/-- The TLS client configuration built in secure mode
(`tls.Config` literal at lines 116-120 of `grpc.go`). -/
structure TLSConfig where
  rootCAs : List Cert
  certificates : List Cert
  insecureSkipVerify : Bool
deriving Repr, DecidableEq

/-- The peer transport chosen at line 98 / line 123 of `grpc.go`:
either the base gRPC transport used directly, or a dialer wrapping it
with a TLS configuration. -/
inductive PeerTransport where
  | base
  | tlsDialer (config : TLSConfig)
deriving Repr, DecidableEq

/-- The transport options assembled at lines 92-95 of `grpc.go`:
a tracer plus, when `MaxResponseSize > 0`, a client max receive size. -/
structure TransportConfig where
  tracer : Nat
  maxRecvMsgSize : Option Int
deriving Repr, DecidableEq

/-- Observable side effects of construction and shutdown, in program
order. -/
inductive Effect where
  | newTransport (cfg : TransportConfig)
  | readFile (path : String)
  | loadKeyPair (certPath keyPath : String)
  | newOutbound (pt : PeerTransport) (peers : List Identifier)
  | transportStart
  | transportStop
  | outboundStart
  | outboundStop
deriving Repr, DecidableEq

/-- Results supplied by the external collaborators of `newGRPC`:
the filesystem, the TLS parser, and the engine start/stop calls. -/
structure GRPCEnv where
  readFile : String → Except String Bytes
  parseCerts : Bytes → List Cert
  loadKeyPair : String → String → Except String Cert
  transportStartResult : Except String Unit
  outboundStartResult : Except String Unit
deriving Inhabited

/-- The `grpcTransport` struct from `grpc.go`.  The unary and stream
outbound are the same underlying object, represented here by the peer
transport and peer list they were bound to. -/
structure GrpcTransport where
  peerTransport : PeerTransport
  peers : List Identifier
  Caller : String
  Encoding : String
  RoutingKey : String
  RoutingDelegate : String
  tracer : Nat
deriving Repr, DecidableEq

/-- The transport option list of lines 92-95: tracer always, max receive
message size only when `MaxResponseSize > 0`. -/
def transportOptions (options : GRPCOptions) (tracer : Nat) : TransportConfig :=
  { tracer := tracer
    maxRecvMsgSize := if options.MaxResponseSize > 0 then some options.MaxResponseSize else none }

/-- Lines 98-124 of `grpc.go`: choose the peer transport.  When all three
TLS paths are non-empty, read the CA file, build the certificate pool
(`AppendCertsFromPEM` fails exactly when no certificate parses), load the
client key pair, and wrap the base transport in a TLS dialer; otherwise
use the base transport directly.  Returns the outcome together with the
trace of file effects. -/
def buildPeerTransport (options : GRPCOptions) (env : GRPCEnv) :
    Except GRPCError PeerTransport × List Effect :=
  if options.CAPath ≠ "" ∧ options.CertPath ≠ "" ∧ options.PrivateKeyPath ≠ "" then
    match env.readFile options.CAPath with
    | .error e => (.error (.loadCA e), [.readFile options.CAPath])
    | .ok ca =>
      if (env.parseCerts ca).isEmpty then
        (.error .appendCAFailed, [.readFile options.CAPath])
      else
        match env.loadKeyPair options.CertPath options.PrivateKeyPath with
        | .error e =>
            (.error (.loadKeyPair e),
             [.readFile options.CAPath, .loadKeyPair options.CertPath options.PrivateKeyPath])
        | .ok clientCert =>
            (.ok (.tlsDialer
              { rootCAs := env.parseCerts ca
                certificates := [clientCert]
                insecureSkipVerify := true }),
             [.readFile options.CAPath, .loadKeyPair options.CertPath options.PrivateKeyPath])
  else
    (.ok .base, [])

/-- Function `newGRPC` from `grpc.go` (lines 81-145): validate options in order,
build the transport and peer transport, bind the round-robin outbound,
start the transport then the outbound (stopping the transport again when
the outbound fails to start), and return the assembled `grpcTransport`.
The second component is the trace of observable effects. -/
def newGRPC (options : GRPCOptions) (env : GRPCEnv) :
    Except GRPCError GrpcTransport × List Effect :=
  if options.Addresses.length = 0 then (.error .noAddresses, [])
  else
    match options.Tracer with
    | none => (.error .noTracer, [])
    | some tracer =>
      if options.Caller = "" then (.error .noCaller, [])
      else
        let cfg := transportOptions options tracer
        match buildPeerTransport options env with
        | (.error e, tlsTrace) => (.error e, .newTransport cfg :: tlsTrace)
        | (.ok peerTransport, tlsTrace) =>
          let identifiers := peersToIdentifiers options.Addresses
          let pre := .newTransport cfg :: tlsTrace ++ [.newOutbound peerTransport identifiers]
          match env.transportStartResult with
          | .error e => (.error (.engine e), pre ++ [.transportStart])
          | .ok _ =>
            match env.outboundStartResult with
            | .error e =>
                (.error (.engine e), pre ++ [.transportStart, .outboundStart, .transportStop])
            | .ok _ =>
                (.ok { peerTransport := peerTransport
                       peers := identifiers
                       Caller := options.Caller
                       Encoding := options.Encoding
                       RoutingKey := options.RoutingKey
                       RoutingDelegate := options.RoutingDelegate
                       tracer := tracer },
                 pre ++ [.transportStart, .outboundStart])

/-- One second, in nanoseconds (`time.Second` as a Go `time.Duration`). -/
def oneSecond : Int := 1000000000

/-- The context handed to the outbound call: either the caller's context
unchanged, or the caller's context with a derived timeout attached. -/
inductive CtxOut where
  | unchanged
  | withTimeout (timeout : Int)
deriving Repr, DecidableEq

/-- Function `requestContextWithTimeout` from `grpc.go` (lines 213-222), with the
context abstracted to whether it already carries a deadline.
`reqTimeout` is `request.Timeout` in nanoseconds. -/
def requestContextWithTimeout (hasDeadline : Bool) (reqTimeout : Int) : CtxOut :=
  if hasDeadline then .unchanged
  else if reqTimeout > 0 then .withTimeout reqTimeout
  else .withTimeout oneSecond

/-- The generic `Request` of the adapter (fields as used by `grpc.go`).  Headers are an ordered key/value list standing for the Go
map; `Timeout` is in nanoseconds. -/
structure Request where
  TargetService : String
  Method : String
  Headers : List (String × String)
  ShardKey : String
  Timeout : Int
  Body : Bytes
deriving Repr, DecidableEq

/-- The generic `StreamRequest`: a wrapper holding a possibly-nil
`Request` pointer. -/
structure StreamRequest where
  Request : Option Request
deriving Repr, DecidableEq

/-- The generic `Response` of the adapter: headers as an ordered list of
key/value pairs as returned by the wire layer, plus materialized body
bytes. -/
structure Response where
  Headers : List (String × String)
  Body : Bytes
deriving Repr, DecidableEq

/-- The wire-level `transport.Request` built by
`requestToYARPCRequest`. -/
structure YARPCRequest where
  Caller : String
  Service : String
  Encoding : String
  Procedure : String
  Headers : List (String × String)
  ShardKey : String
  RoutingKey : String
  RoutingDelegate : String
  Body : Bytes
deriving Repr, DecidableEq

/-- The metadata of a wire-level `transport.StreamRequest` built by
`requestToYARPCStreamRequest`. -/
structure YARPCStreamRequest where
  Caller : String
  Service : String
  Encoding : String
  Procedure : String
  Headers : List (String × String)
  ShardKey : String
  RoutingKey : String
  RoutingDelegate : String
deriving Repr, DecidableEq

/-- A wire-level response body stream, abstracted by the outcome of
fully reading it (`ioutil.ReadAll`) and of closing it. -/
structure BodyStream where
  readResult : Except String Bytes
  closeResult : Except String Unit
deriving Repr

/-- The wire-level `transport.Response`: header items plus an optional
body stream (`nil` body modelled as `none`). -/
structure YARPCResponse where
  headers : List (String × String)
  body : Option BodyStream
deriving Repr

/-- Model of `transport.HeadersFromMap`: builds wire headers from the request
header mapping (modelled as the identity on the ordered list). -/
def headersFromMap (m : List (String × String)) : List (String × String) := m

/-- Function `requestToYARPCRequest` from `grpc.go` (lines 199-211): caller,
encoding and routing come from the transport configuration; service,
method, headers, shard key and body come from the request. -/
def requestToYARPCRequest (t : GrpcTransport) (request : Request) : YARPCRequest :=
  { Caller := t.Caller
    Service := request.TargetService
    Encoding := t.Encoding
    Procedure := request.Method
    Headers := headersFromMap request.Headers
    ShardKey := request.ShardKey
    RoutingKey := t.RoutingKey
    RoutingDelegate := t.RoutingDelegate
    Body := request.Body }

/-- Function `requestToYARPCStreamRequest` from `grpc.go` (lines 180-197): a nil
receiver, nil stream request, or nil inner request yields nil; otherwise
the same metadata translation as the unary path. -/
def requestToYARPCStreamRequest (t : Option GrpcTransport) (streamRequest : Option StreamRequest) :
    Option YARPCStreamRequest :=
  match t, streamRequest with
  | some t, some streamRequest =>
    match streamRequest.Request with
    | none => none
    | some request =>
      some { Caller := t.Caller
             Service := request.TargetService
             Encoding := t.Encoding
             Procedure := request.Method
             Headers := headersFromMap request.Headers
             ShardKey := request.ShardKey
             RoutingKey := t.RoutingKey
             RoutingDelegate := t.RoutingDelegate }
  | _, _ => none

/-- Function `yarpcResponseToResponse` from `grpc.go` (lines 224-239): copy the
header items, and when a body stream is present read it fully then close
it, failing on either error; body bytes are only attached on success. -/
def yarpcResponseToResponse (transportResponse : YARPCResponse) :
    Except GRPCError Response :=
  match transportResponse.body with
  | none => .ok { Headers := transportResponse.headers, Body := [] }
  | some stream =>
    match stream.readResult with
    | .error e => .error (.engine e)
    | .ok body =>
      match stream.closeResult with
      | .error e => .error (.engine e)
      | .ok _ => .ok { Headers := transportResponse.headers, Body := body }

/-- The outbound channel abstracted for a unary call: given the derived
context and the translated wire request, the engine either fails or
produces a wire response. -/
structure CallEnv where
  outboundCall : CtxOut → YARPCRequest → Except String YARPCResponse

/-- Method `Call` from `grpc.go` (lines 155-170): validate target service then
method, derive the per-call context, invoke the outbound, and translate
the response.  The second component records the invocation of the
outbound channel (`none` when it was never invoked). -/
def Call (t : GrpcTransport) (hasDeadline : Bool) (request : Request) (env : CallEnv) :
    Except GRPCError Response × Option (CtxOut × YARPCRequest) :=
  if request.TargetService = "" then (.error .noService, none)
  else if request.Method = "" then (.error .noProcedure, none)
  else
    let ctx := requestContextWithTimeout hasDeadline request.Timeout
    let yarpcRequest := requestToYARPCRequest t request
    match env.outboundCall ctx yarpcRequest with
    | .error e => (.error (.engine e), some (ctx, yarpcRequest))
    | .ok transportResponse => (yarpcResponseToResponse transportResponse, some (ctx, yarpcRequest))

/-- An abstract stream handle returned by the stream outbound. -/
abbrev ClientStream := Nat

/-- The stream outbound channel abstracted: given the translated stream
request (possibly nil) it produces whatever handle and error it likes. -/
structure StreamEnv where
  callStream : Option YARPCStreamRequest → Except String ClientStream

/-- Method `CallStream` from `grpc.go` (lines 172-174): translate and delegate
directly to the stream outbound, with no validation. -/
def CallStream (t : GrpcTransport) (streamRequest : Option StreamRequest) (env : StreamEnv) :
    Except String ClientStream :=
  env.callStream (requestToYARPCStreamRequest (some t) streamRequest)

/-- Stop results of the two resources, for `Close` (`none` = success). -/
structure CloseEnv where
  transportStopResult : Option String
  outboundStopResult : Option String
deriving Repr, DecidableEq

/-- Model of `multierr.Combine`: drop nil errors; `none` when none remain,
otherwise the list of failures in argument order. -/
def multierrCombine (errs : List (Option String)) : Option (List String) :=
  match errs.filterMap id with
  | [] => none
  | es => some es

/-- Method `Close` from `grpc.go` (lines 176-178): evaluate both stops (both
always attempted, recorded in the trace) and combine their errors. -/
def Close (env : CloseEnv) : Option (List String) × List Effect :=
  (multierrCombine [env.transportStopResult, env.outboundStopResult],
   [.transportStop, .outboundStop])

/-- A concrete environment in which every external collaborator
succeeds, used to evaluate the definitions at concrete inputs. -/
def sampleEnv : GRPCEnv :=
  { readFile := fun _ => .ok [1, 2]
    parseCerts := fun b => b
    loadKeyPair := fun _ _ => .ok 7
    transportStartResult := .ok ()
    outboundStartResult := .ok () }

/-- Concrete plaintext options used to evaluate the definitions. -/
def sampleOptions : GRPCOptions :=
  { Addresses := ["a:1", "b:2"]
    Tracer := some 0
    Caller := "svc"
    Encoding := "proto"
    RoutingKey := ""
    RoutingDelegate := ""
    MaxResponseSize := 0
    CAPath := ""
    CertPath := ""
    PrivateKeyPath := "" }

/-- A concrete transport configuration used to evaluate the call path. -/
def sampleTransport : GrpcTransport :=
  { peerTransport := .base
    peers := ["a:1"]
    Caller := "me"
    Encoding := "raw"
    RoutingKey := "rk"
    RoutingDelegate := "rd"
    tracer := 0 }

/-- A concrete unary outbound that always fails. -/
def sampleCallEnv : CallEnv :=
  { outboundCall := fun _ _ => .error "boom" }

/-- A concrete stream outbound returning a fixed handle. -/
def sampleStreamEnv : StreamEnv :=
  { callStream := fun _ => .ok 3 }

end YabGRPC

namespace YabGRPC

/-- Claim C1: with a caller deadline the context passes through unchanged for
every timeout value; without one the timeout is `request.Timeout` when
positive and one second otherwise. -/
theorem call_timeout_policy (hasDeadline : Bool) (reqTimeout : Int) :
    (hasDeadline = true → requestContextWithTimeout hasDeadline reqTimeout = .unchanged) ∧
    (hasDeadline = false → 0 < reqTimeout →
      requestContextWithTimeout hasDeadline reqTimeout = .withTimeout reqTimeout) ∧
    (hasDeadline = false → reqTimeout ≤ 0 →
      requestContextWithTimeout hasDeadline reqTimeout = .withTimeout oneSecond) := by
  refine ⟨?_, ?_, ?_⟩
  · intro h; simp [requestContextWithTimeout, h]
  · intro h hpos; simp [requestContextWithTimeout, h, hpos]
  · intro h hnp; simp [requestContextWithTimeout, h, not_lt.mpr hnp]

/-- Witness for C1 at concrete inputs. -/
theorem call_timeout_policy_witness :
    requestContextWithTimeout true (-5) = .unchanged ∧
    requestContextWithTimeout false 7 = .withTimeout 7 ∧
    requestContextWithTimeout false 0 = .withTimeout oneSecond :=
  ⟨(call_timeout_policy true (-5)).1 rfl,
   (call_timeout_policy false 7).2.1 rfl (by norm_num),
   (call_timeout_policy false 0).2.2 rfl (by norm_num)⟩

/-- Claim C2: function `newGRPC` validates addresses, then tracer, then caller; the
first failing check short-circuits with its own distinct error, a nil
transport, and an empty effect trace (nothing constructed or started). -/
theorem newGRPC_validation_order (options : GRPCOptions) (env : GRPCEnv) :
    (options.Addresses = [] → newGRPC options env = (.error .noAddresses, [])) ∧
    (options.Addresses ≠ [] → options.Tracer = none →
      newGRPC options env = (.error .noTracer, [])) ∧
    (options.Addresses ≠ [] → options.Tracer ≠ none → options.Caller = "" →
      newGRPC options env = (.error .noCaller, [])) ∧
    (GRPCError.noAddresses ≠ .noTracer ∧ GRPCError.noAddresses ≠ .noCaller ∧
      GRPCError.noTracer ≠ .noCaller) := by
  refine ⟨?_, ?_, ?_, by decide⟩
  · intro h
    simp [newGRPC, h]
  · intro h1 h2
    simp [newGRPC, List.length_eq_zero, h1, h2]
  · intro h1 h2 h3
    obtain ⟨tracer, ht⟩ := Option.ne_none_iff_exists.mp h2
    simp [newGRPC, List.length_eq_zero, h1, ← ht, h3]

/-- Witness for C2 at concrete options. -/
theorem newGRPC_validation_order_witness :
    newGRPC { sampleOptions with Addresses := [] } sampleEnv = (.error .noAddresses, []) ∧
    newGRPC { sampleOptions with Tracer := none } sampleEnv = (.error .noTracer, []) ∧
    newGRPC { sampleOptions with Caller := "" } sampleEnv = (.error .noCaller, []) :=
  ⟨(newGRPC_validation_order { sampleOptions with Addresses := [] } sampleEnv).1 rfl,
   (newGRPC_validation_order { sampleOptions with Tracer := none } sampleEnv).2.1
     (by simp [sampleOptions]) rfl,
   (newGRPC_validation_order { sampleOptions with Caller := "" } sampleEnv).2.2.1
     (by simp [sampleOptions]) (by simp [sampleOptions]) rfl⟩

/-- Claim C3: method `Call` fails fast with the no-service error on an empty target
service, else with the no-procedure error on an empty method, in both
cases with a nil response and without invoking the outbound channel. -/
theorem call_validation (t : GrpcTransport) (hasDeadline : Bool) (request : Request)
    (env : CallEnv) :
    (request.TargetService = "" →
      Call t hasDeadline request env = (.error .noService, none)) ∧
    (request.TargetService ≠ "" → request.Method = "" →
      Call t hasDeadline request env = (.error .noProcedure, none)) ∧
    GRPCError.noService ≠ GRPCError.noProcedure := by
  refine ⟨?_, ?_, by decide⟩
  · intro h
    simp [Call, h]
  · intro h1 h2
    simp [Call, h1, h2]

/-- Witness for C3 at concrete requests. -/
theorem call_validation_witness :
    Call sampleTransport false
      { TargetService := "", Method := "m", Headers := [], ShardKey := "",
        Timeout := 0, Body := [] } sampleCallEnv = (.error .noService, none) ∧
    Call sampleTransport false
      { TargetService := "s", Method := "", Headers := [], ShardKey := "",
        Timeout := 0, Body := [] } sampleCallEnv = (.error .noProcedure, none) :=
  ⟨(call_validation sampleTransport false
      { TargetService := "", Method := "m", Headers := [], ShardKey := "",
        Timeout := 0, Body := [] } sampleCallEnv).1 rfl,
   (call_validation sampleTransport false
      { TargetService := "s", Method := "", Headers := [], ShardKey := "",
        Timeout := 0, Body := [] } sampleCallEnv).2.1 (by simp) rfl⟩

/-- Claim C6: method `Close` always attempts both stops (both appear in its trace for
every environment) and combines their failures: nil when both succeed,
the single failure when one fails, both failures when both fail. -/
theorem close_combines_stop_errors (env : CloseEnv) :
    (Close env).2 = [.transportStop, .outboundStop] ∧
    (env.transportStopResult = none → env.outboundStopResult = none →
      (Close env).1 = none) ∧
    (∀ e1, env.transportStopResult = some e1 → env.outboundStopResult = none →
      (Close env).1 = some [e1]) ∧
    (∀ e2, env.transportStopResult = none → env.outboundStopResult = some e2 →
      (Close env).1 = some [e2]) ∧
    (∀ e1 e2, env.transportStopResult = some e1 → env.outboundStopResult = some e2 →
      (Close env).1 = some [e1, e2]) := by
  refine ⟨rfl, ?_, ?_, ?_, ?_⟩
  · intro h1 h2
    simp [Close, multierrCombine, h1, h2]
  · intro e1 h1 h2
    simp [Close, multierrCombine, h1, h2]
  · intro e2 h1 h2
    simp [Close, multierrCombine, h1, h2]
  · intro e1 e2 h1 h2
    simp [Close, multierrCombine, h1, h2]

/-- Witness for C6 at a concrete environment where both stops fail. -/
theorem close_combines_stop_errors_witness :
    (Close { transportStopResult := some "t", outboundStopResult := some "o" }).1 =
      some ["t", "o"] :=
  (close_combines_stop_errors
    { transportStopResult := some "t", outboundStopResult := some "o" }).2.2.2.2
    "t" "o" rfl rfl

/-- Claim C7: the translated response carries the wire header items; with a
body stream present, the stream is fully read and closed, a read or
close failure is returned with a nil response, and on success the body
equals the bytes read. -/
theorem response_translation (transportResponse : YARPCResponse) :
    (transportResponse.body = none →
      yarpcResponseToResponse transportResponse =
        .ok { Headers := transportResponse.headers, Body := [] }) ∧
    (∀ stream, transportResponse.body = some stream →
      (∀ e, stream.readResult = .error e →
        yarpcResponseToResponse transportResponse = .error (.engine e)) ∧
      (∀ bodyBytes, stream.readResult = .ok bodyBytes →
        (∀ e, stream.closeResult = .error e →
          yarpcResponseToResponse transportResponse = .error (.engine e)) ∧
        (stream.closeResult = .ok () →
          yarpcResponseToResponse transportResponse =
            .ok { Headers := transportResponse.headers, Body := bodyBytes }))) := by
  constructor
  · intro h
    simp [yarpcResponseToResponse, h]
  · intro stream hs
    constructor
    · intro e he
      simp [yarpcResponseToResponse, hs, he]
    · intro bodyBytes hb
      constructor
      · intro e he
        simp [yarpcResponseToResponse, hs, hb, he]
      · intro hc
        simp [yarpcResponseToResponse, hs, hb, hc]

/-- Witness for C7 at concrete wire responses. -/
theorem response_translation_witness :
    yarpcResponseToResponse { headers := [("k", "v")], body := none } =
      .ok { Headers := [("k", "v")], Body := [] } ∧
    yarpcResponseToResponse
      { headers := [("k", "v")],
        body := some { readResult := .error "rerr", closeResult := .ok () } } =
      .error (.engine "rerr") ∧
    yarpcResponseToResponse
      { headers := [("k", "v")],
        body := some { readResult := .ok [9, 8], closeResult := .error "cerr" } } =
      .error (.engine "cerr") ∧
    yarpcResponseToResponse
      { headers := [("k", "v")],
        body := some { readResult := .ok [9, 8], closeResult := .ok () } } =
      .ok { Headers := [("k", "v")], Body := [9, 8] } :=
  ⟨(response_translation { headers := [("k", "v")], body := none }).1 rfl,
   ((response_translation
      { headers := [("k", "v")],
        body := some { readResult := .error "rerr", closeResult := .ok () } }).2
      { readResult := .error "rerr", closeResult := .ok () } rfl).1 "rerr" rfl,
   (((response_translation
      { headers := [("k", "v")],
        body := some { readResult := .ok [9, 8], closeResult := .error "cerr" } }).2
      { readResult := .ok [9, 8], closeResult := .error "cerr" } rfl).2 [9, 8] rfl).1
      "cerr" rfl,
   (((response_translation
      { headers := [("k", "v")],
        body := some { readResult := .ok [9, 8], closeResult := .ok () } }).2
      { readResult := .ok [9, 8], closeResult := .ok () } rfl).2 [9, 8] rfl).2 rfl⟩

/-- Claim C8: the stream translation maps a nil receiver, nil stream request,
or nil inner request to a nil wire request rather than an error, and
`CallStream` performs no service or method validation: it always returns
exactly what the stream outbound produces on the translated request,
even when both fields are empty. -/
theorem stream_nil_tolerated_no_validation (t : GrpcTransport) (streamRequest : StreamRequest)
    (request : Request) (env : StreamEnv) :
    (∀ sr, requestToYARPCStreamRequest none sr = none) ∧
    requestToYARPCStreamRequest (some t) none = none ∧
    (streamRequest.Request = none →
      requestToYARPCStreamRequest (some t) (some streamRequest) = none) ∧
    CallStream t (some streamRequest) env =
      env.callStream (requestToYARPCStreamRequest (some t) (some streamRequest)) ∧
    (request.TargetService = "" → request.Method = "" →
      CallStream t (some { Request := some request }) env =
        env.callStream (some
          { Caller := t.Caller, Service := "", Encoding := t.Encoding, Procedure := "",
            Headers := headersFromMap request.Headers, ShardKey := request.ShardKey,
            RoutingKey := t.RoutingKey, RoutingDelegate := t.RoutingDelegate })) := by
  refine ⟨?_, rfl, ?_, rfl, ?_⟩
  · intro sr
    cases sr <;> rfl
  · intro h
    simp [requestToYARPCStreamRequest, h]
  · intro h1 h2
    simp [CallStream, requestToYARPCStreamRequest, h1, h2]

/-- Witness for C8 at a concrete empty-field stream request. -/
theorem stream_nil_tolerated_no_validation_witness :
    requestToYARPCStreamRequest (some sampleTransport) (some { Request := none }) = none ∧
    CallStream sampleTransport
      (some { Request := some { TargetService := "", Method := "", Headers := [],
                                ShardKey := "", Timeout := 0, Body := [] } })
      sampleStreamEnv =
      sampleStreamEnv.callStream (some
        { Caller := sampleTransport.Caller, Service := "",
          Encoding := sampleTransport.Encoding, Procedure := "",
          Headers := [], ShardKey := "",
          RoutingKey := sampleTransport.RoutingKey,
          RoutingDelegate := sampleTransport.RoutingDelegate }) :=
  ⟨(stream_nil_tolerated_no_validation sampleTransport { Request := none }
      { TargetService := "", Method := "", Headers := [], ShardKey := "",
        Timeout := 0, Body := [] } sampleStreamEnv).2.2.1 rfl,
   (stream_nil_tolerated_no_validation sampleTransport { Request := none }
      { TargetService := "", Method := "", Headers := [], ShardKey := "",
        Timeout := 0, Body := [] } sampleStreamEnv).2.2.2.2 rfl rfl⟩

/-- The peer-transport construction only ever reads the CA file and
loads the key pair: its trace is one of three fixed lists. -/
theorem buildPeerTransport_trace_cases (options : GRPCOptions) (env : GRPCEnv) :
    (buildPeerTransport options env).2 = [] ∨
    (buildPeerTransport options env).2 = [.readFile options.CAPath] ∨
    (buildPeerTransport options env).2 =
      [.readFile options.CAPath, .loadKeyPair options.CertPath options.PrivateKeyPath] := by
  unfold buildPeerTransport
  split
  · split
    · simp
    · split
      · simp
      · split <;> simp
  · simp

/-- Claim C4: with all three TLS paths set and the CA read, pool parse and key
pair load succeeding, the peer transport is a dialer whose TLS
configuration trusts exactly the parsed CA pool, presents exactly the
loaded client certificate, and disables hostname verification; the
constructor then returns a transport built on that dialer. -/
theorem secure_mode_tls_config (options : GRPCOptions) (env : GRPCEnv) (tracer : Nat)
    (ca : Bytes) (clientCert : Cert)
    (hca : options.CAPath ≠ "") (hcert : options.CertPath ≠ "")
    (hkey : options.PrivateKeyPath ≠ "")
    (hread : env.readFile options.CAPath = .ok ca)
    (hpool : env.parseCerts ca ≠ [])
    (hload : env.loadKeyPair options.CertPath options.PrivateKeyPath = .ok clientCert) :
    buildPeerTransport options env =
      (.ok (.tlsDialer { rootCAs := env.parseCerts ca,
                         certificates := [clientCert],
                         insecureSkipVerify := true }),
       [.readFile options.CAPath,
        .loadKeyPair options.CertPath options.PrivateKeyPath]) ∧
    (options.Addresses ≠ [] → options.Tracer = some tracer → options.Caller ≠ "" →
      env.transportStartResult = .ok () → env.outboundStartResult = .ok () →
      newGRPC options env =
        (.ok { peerTransport := .tlsDialer { rootCAs := env.parseCerts ca,
                                             certificates := [clientCert],
                                             insecureSkipVerify := true },
               peers := peersToIdentifiers options.Addresses,
               Caller := options.Caller, Encoding := options.Encoding,
               RoutingKey := options.RoutingKey,
               RoutingDelegate := options.RoutingDelegate,
               tracer := tracer },
         [.newTransport (transportOptions options tracer),
          .readFile options.CAPath,
          .loadKeyPair options.CertPath options.PrivateKeyPath,
          .newOutbound (.tlsDialer { rootCAs := env.parseCerts ca,
                                     certificates := [clientCert],
                                     insecureSkipVerify := true })
                       (peersToIdentifiers options.Addresses),
          .transportStart, .outboundStart])) := by
  have hb : buildPeerTransport options env =
      (.ok (.tlsDialer { rootCAs := env.parseCerts ca,
                         certificates := [clientCert],
                         insecureSkipVerify := true }),
       [.readFile options.CAPath,
        .loadKeyPair options.CertPath options.PrivateKeyPath]) := by
    simp [buildPeerTransport, hca, hcert, hkey, hread, hload,
      List.isEmpty_iff, hpool]
  refine ⟨hb, ?_⟩
  intro h1 h2 h3 hts hos
  simp [newGRPC, List.length_eq_zero, h1, h2, h3, hb, hts, hos]

/-- Concrete secure-mode options used to evaluate the TLS path. -/
def sampleSecureOptions : GRPCOptions :=
  { sampleOptions with
    CAPath := "ca.pem", CertPath := "cert.pem", PrivateKeyPath := "key.pem" }

/-- Witness for C4 at concrete options and environment. -/
theorem secure_mode_tls_config_witness :
    newGRPC sampleSecureOptions sampleEnv =
      (.ok { peerTransport := .tlsDialer { rootCAs := [1, 2],
                                           certificates := [7],
                                           insecureSkipVerify := true },
             peers := ["a:1", "b:2"],
             Caller := "svc", Encoding := "proto",
             RoutingKey := "", RoutingDelegate := "",
             tracer := 0 },
       [.newTransport { tracer := 0, maxRecvMsgSize := none },
        .readFile "ca.pem", .loadKeyPair "cert.pem" "key.pem",
        .newOutbound (.tlsDialer { rootCAs := [1, 2],
                                   certificates := [7],
                                   insecureSkipVerify := true }) ["a:1", "b:2"],
        .transportStart, .outboundStart]) :=
  (secure_mode_tls_config sampleSecureOptions sampleEnv 0 [1, 2] 7
    (by decide) (by decide) (by decide) rfl (by decide) rfl).2
    (by decide) rfl (by decide) rfl rfl

/-- Claim C5: after validation, a transport start failure returns that engine
error without ever starting the outbound or stopping anything, and an
outbound start failure stops the already-started transport and returns
the outbound's engine error. -/
theorem construction_start_failure (options : GRPCOptions) (env : GRPCEnv) (tracer : Nat)
    (pt : PeerTransport) (tlsTrace : List Effect)
    (h1 : options.Addresses ≠ []) (h2 : options.Tracer = some tracer)
    (h3 : options.Caller ≠ "")
    (hpt : buildPeerTransport options env = (.ok pt, tlsTrace)) :
    (∀ e, env.transportStartResult = .error e →
      newGRPC options env =
        (.error (.engine e),
         .newTransport (transportOptions options tracer) ::
           tlsTrace ++ [.newOutbound pt (peersToIdentifiers options.Addresses),
                        .transportStart]) ∧
      Effect.outboundStart ∉ (newGRPC options env).2 ∧
      Effect.transportStop ∉ (newGRPC options env).2) ∧
    (∀ e, env.transportStartResult = .ok () → env.outboundStartResult = .error e →
      newGRPC options env =
        (.error (.engine e),
         .newTransport (transportOptions options tracer) ::
           tlsTrace ++ [.newOutbound pt (peersToIdentifiers options.Addresses),
                        .transportStart, .outboundStart, .transportStop])) := by
  have htl : (buildPeerTransport options env).2 = tlsTrace := by rw [hpt]
  have hchar := buildPeerTransport_trace_cases options env
  rw [htl] at hchar
  constructor
  · intro e he
    have hng : newGRPC options env =
        (.error (.engine e),
         .newTransport (transportOptions options tracer) ::
           tlsTrace ++ [.newOutbound pt (peersToIdentifiers options.Addresses),
                        .transportStart]) := by
      simp [newGRPC, List.length_eq_zero, h1, h2, h3, hpt, he]
    refine ⟨hng, ?_, ?_⟩
    · rw [hng]
      rcases hchar with h | h | h <;> simp [h]
    · rw [hng]
      rcases hchar with h | h | h <;> simp [h]
  · intro e hts hos
    simp [newGRPC, List.length_eq_zero, h1, h2, h3, hpt, hts, hos]

/-- Environment whose transport start fails. -/
def sampleEnvTransportStartFail : GRPCEnv :=
  { sampleEnv with transportStartResult := .error "ts" }

/-- Environment whose outbound start fails. -/
def sampleEnvOutboundStartFail : GRPCEnv :=
  { sampleEnv with outboundStartResult := .error "os" }

/-- Witness for C5 at concrete environments. -/
theorem construction_start_failure_witness :
    newGRPC sampleOptions sampleEnvTransportStartFail =
      (.error (.engine "ts"),
       [.newTransport { tracer := 0, maxRecvMsgSize := none },
        .newOutbound .base ["a:1", "b:2"], .transportStart]) ∧
    newGRPC sampleOptions sampleEnvOutboundStartFail =
      (.error (.engine "os"),
       [.newTransport { tracer := 0, maxRecvMsgSize := none },
        .newOutbound .base ["a:1", "b:2"],
        .transportStart, .outboundStart, .transportStop]) :=
  ⟨((construction_start_failure sampleOptions sampleEnvTransportStartFail 0 .base []
      (by decide) rfl (by decide) rfl).1 "ts" rfl).1,
   (construction_start_failure sampleOptions sampleEnvOutboundStartFail 0 .base []
      (by decide) rfl (by decide) rfl).2 "os" rfl rfl⟩

/-- Claim C9: in secure mode a CA read failure, an empty parsed pool, or a key
pair load failure each abort construction with its own error and a nil
transport, the trace showing that no outbound was created or started. -/
theorem secure_mode_failures (options : GRPCOptions) (env : GRPCEnv) (tracer : Nat)
    (h1 : options.Addresses ≠ []) (h2 : options.Tracer = some tracer)
    (h3 : options.Caller ≠ "")
    (hca : options.CAPath ≠ "") (hcert : options.CertPath ≠ "")
    (hkey : options.PrivateKeyPath ≠ "") :
    (∀ e, env.readFile options.CAPath = .error e →
      newGRPC options env =
        (.error (.loadCA e),
         [.newTransport (transportOptions options tracer),
          .readFile options.CAPath])) ∧
    (∀ ca, env.readFile options.CAPath = .ok ca → env.parseCerts ca = [] →
      newGRPC options env =
        (.error .appendCAFailed,
         [.newTransport (transportOptions options tracer),
          .readFile options.CAPath])) ∧
    (∀ ca e, env.readFile options.CAPath = .ok ca → env.parseCerts ca ≠ [] →
      env.loadKeyPair options.CertPath options.PrivateKeyPath = .error e →
      newGRPC options env =
        (.error (.loadKeyPair e),
         [.newTransport (transportOptions options tracer),
          .readFile options.CAPath,
          .loadKeyPair options.CertPath options.PrivateKeyPath])) := by
  refine ⟨?_, ?_, ?_⟩
  · intro e he
    have hb : buildPeerTransport options env =
        (.error (.loadCA e), [.readFile options.CAPath]) := by
      simp [buildPeerTransport, hca, hcert, hkey, he]
    simp [newGRPC, List.length_eq_zero, h1, h2, h3, hb]
  · intro ca hread hempty
    have hb : buildPeerTransport options env =
        (.error .appendCAFailed, [.readFile options.CAPath]) := by
      simp [buildPeerTransport, hca, hcert, hkey, hread, List.isEmpty_iff, hempty]
    simp [newGRPC, List.length_eq_zero, h1, h2, h3, hb]
  · intro ca e hread hpool hload
    have hb : buildPeerTransport options env =
        (.error (.loadKeyPair e),
         [.readFile options.CAPath,
          .loadKeyPair options.CertPath options.PrivateKeyPath]) := by
      simp [buildPeerTransport, hca, hcert, hkey, hread, List.isEmpty_iff, hpool, hload]
    simp [newGRPC, List.length_eq_zero, h1, h2, h3, hb]

/-- Environment whose CA file read fails. -/
def sampleEnvReadFail : GRPCEnv :=
  { sampleEnv with readFile := fun _ => .error "io" }

/-- Environment whose PEM parse yields no certificate. -/
def sampleEnvParseFail : GRPCEnv :=
  { sampleEnv with parseCerts := fun _ => [] }

/-- Environment whose key pair load fails. -/
def sampleEnvKeyFail : GRPCEnv :=
  { sampleEnv with loadKeyPair := fun _ _ => .error "kp" }

/-- Witness for C9 at concrete environments. -/
theorem secure_mode_failures_witness :
    newGRPC sampleSecureOptions sampleEnvReadFail =
      (.error (.loadCA "io"),
       [.newTransport { tracer := 0, maxRecvMsgSize := none }, .readFile "ca.pem"]) ∧
    newGRPC sampleSecureOptions sampleEnvParseFail =
      (.error .appendCAFailed,
       [.newTransport { tracer := 0, maxRecvMsgSize := none }, .readFile "ca.pem"]) ∧
    newGRPC sampleSecureOptions sampleEnvKeyFail =
      (.error (.loadKeyPair "kp"),
       [.newTransport { tracer := 0, maxRecvMsgSize := none }, .readFile "ca.pem",
        .loadKeyPair "cert.pem" "key.pem"]) :=
  ⟨(secure_mode_failures sampleSecureOptions sampleEnvReadFail 0
      (by decide) rfl (by decide) (by decide) (by decide) (by decide)).1 "io" rfl,
   (secure_mode_failures sampleSecureOptions sampleEnvParseFail 0
      (by decide) rfl (by decide) (by decide) (by decide) (by decide)).2.1
      [1, 2] rfl rfl,
   (secure_mode_failures sampleSecureOptions sampleEnvKeyFail 0
      (by decide) rfl (by decide) (by decide) (by decide) (by decide)).2.2
      [1, 2] "kp" rfl (by decide) rfl⟩

/-- Claim C10: with at least one TLS path empty, no TLS file is touched and
the base transport is used directly as the peer transport; with valid
options and successful starts the constructor then succeeds with a
plaintext channel. -/
theorem plaintext_when_tls_incomplete (options : GRPCOptions) (env : GRPCEnv) (tracer : Nat)
    (hinc : options.CAPath = "" ∨ options.CertPath = "" ∨ options.PrivateKeyPath = "") :
    buildPeerTransport options env = (.ok .base, []) ∧
    (options.Addresses ≠ [] → options.Tracer = some tracer → options.Caller ≠ "" →
      env.transportStartResult = .ok () → env.outboundStartResult = .ok () →
      newGRPC options env =
        (.ok { peerTransport := .base,
               peers := peersToIdentifiers options.Addresses,
               Caller := options.Caller, Encoding := options.Encoding,
               RoutingKey := options.RoutingKey,
               RoutingDelegate := options.RoutingDelegate,
               tracer := tracer },
         [.newTransport (transportOptions options tracer),
          .newOutbound .base (peersToIdentifiers options.Addresses),
          .transportStart, .outboundStart])) := by
  have hcond : ¬(options.CAPath ≠ "" ∧ options.CertPath ≠ "" ∧ options.PrivateKeyPath ≠ "") := by
    rcases hinc with h | h | h <;> simp [h]
  have hb : buildPeerTransport options env = (.ok .base, []) := by
    rw [buildPeerTransport, if_neg hcond]
  refine ⟨hb, ?_⟩
  intro h1 h2 h3 hts hos
  simp [newGRPC, List.length_eq_zero, h1, h2, h3, hb, hts, hos]

/-- Witness for C10: a cert and key path without a CA path still yields
a plaintext channel. -/
theorem plaintext_when_tls_incomplete_witness :
    newGRPC { sampleOptions with CertPath := "cert.pem", PrivateKeyPath := "key.pem" }
      sampleEnv =
      (.ok { peerTransport := .base,
             peers := ["a:1", "b:2"],
             Caller := "svc", Encoding := "proto",
             RoutingKey := "", RoutingDelegate := "",
             tracer := 0 },
       [.newTransport { tracer := 0, maxRecvMsgSize := none },
        .newOutbound .base ["a:1", "b:2"],
        .transportStart, .outboundStart]) :=
  (plaintext_when_tls_incomplete
    { sampleOptions with CertPath := "cert.pem", PrivateKeyPath := "key.pem" }
    sampleEnv 0 (Or.inl rfl)).2
    (by decide) rfl (by decide) rfl rfl

end YabGRPC
